import Mathlib

/-!
Verification development for the CRM demo service (`crm_sample.py`): an
in-memory store of customers, products and service records exposed over
HTTP, with derived warranty-status computation, auto-incrementing record
ids, partial updates and filtered listing.

Python `date` values are embedded as proleptic-Gregorian ordinals
(`date.toordinal`), so date comparison is `Nat` comparison and
`(a - b).days` is `(a : Int) - b`.  Python `dict`s (which preserve
insertion order, look up by key, and on assignment overwrite in place or
append) are embedded as association lists with `dictGet` / `dictSet`.
-/

namespace CRMSample

/-- Leap-year test of the proleptic Gregorian calendar, as in Python's
`datetime` module. -/
def isLeapYear (y : Nat) : Bool :=
  (y % 4 == 0 && y % 100 != 0) || (y % 400 == 0)

/-- Number of days in the years strictly before `y`, counting from year 1
(Python `datetime._days_before_year`). -/
def daysBeforeYear (y : Nat) : Nat :=
  let p := y - 1
  p * 365 + p / 4 - p / 100 + p / 400

/-- Number of days in year `y` strictly before month `m`
(Python `datetime._days_before_month`). -/
def daysBeforeMonth (y m : Nat) : Nat :=
  let base :=
    match m with
    | 1 => 0 | 2 => 31 | 3 => 59 | 4 => 90 | 5 => 120 | 6 => 151
    | 7 => 181 | 8 => 212 | 9 => 243 | 10 => 273 | 11 => 304 | _ => 334
  if 2 < m && isLeapYear y then base + 1 else base

/-- Python `date(y, m, d).toordinal()`: day count from 0001-01-01 = 1. -/
def toOrdinal (y m d : Nat) : Nat :=
  daysBeforeYear y + daysBeforeMonth y m + d

/-- Python `datetime` values in this service are only stored and copied,
never computed with, so they are embedded structurally. -/
structure DateTime where
  year : Nat
  month : Nat
  day : Nat
  hour : Nat
  minute : Nat
deriving DecidableEq, Repr

/-- `Customer` pydantic model.  `email` is a plain string here (the
`EmailStr` format check is external to the service logic); the monetary
`lifetime_value` is carried in whole currency units, which is exact for
every value the service holds. -/
structure Customer where
  customer_id : String
  name : String
  email : String
  phone : String
  address : String
  registration_date : Nat
  date_of_birth : Option Nat := none
  notes : Option String := none
  total_purchases : Nat := 0
  lifetime_value : Nat := 0
  support_cases_count : Nat := 0
  communication_preferences : List String := []
deriving DecidableEq, Repr

/-- `Product` pydantic model. -/
structure Product where
  product_id : String
  serial_number : String
  product_name : String
  customer_id : String
  purchase_date : Nat
  warranty_end_date : Nat
  warranty_type : String
  status : String
deriving DecidableEq, Repr

/-- `ServiceRecord` pydantic model.  `status` is a free string in the
model (`scheduled`, `completed`, `cancelled` in practice); durations are
minutes. -/
structure ServiceRecord where
  record_id : String
  serial_number : String
  customer_id : String
  service_date : DateTime
  service_type : String
  description : String
  technician : String
  status : String
  estimated_duration : Int
  actual_duration : Option Int := none
  notes : Option String := none
deriving DecidableEq, Repr

/-- `ServiceStatus` string enum. -/
inductive ServiceStatus where
  | scheduled
  | completed
  | cancelled
deriving DecidableEq, Repr

/-- Underlying string value of a `ServiceStatus` member. -/
def ServiceStatus.value : ServiceStatus → String
  | .scheduled => "scheduled"
  | .completed => "completed"
  | .cancelled => "cancelled"

/-- `WarrantyQuery` request body. -/
structure WarrantyQuery where
  serial_number : String
  customer_email : Option String := none
deriving DecidableEq, Repr

/-- `ServiceRecordCreate` request body. -/
structure ServiceRecordCreate where
  serial_number : String
  service_type : String
  description : String
  technician : String
  service_date : DateTime
  estimated_duration : Int
deriving DecidableEq, Repr

/-- `ServiceRecordUpdate` request body: every field optional, `None`
meaning "not supplied". -/
structure ServiceRecordUpdate where
  service_date : Option DateTime := none
  status : Option ServiceStatus := none
  actual_duration : Option Int := none
  notes : Option String := none
deriving DecidableEq, Repr

/-- `WarrantyResponse` body. -/
structure WarrantyResponse where
  product_name : String
  serial_number : String
  customer_name : String
  purchase_date : Nat
  warranty_end_date : Nat
  warranty_type : String
  status_text : String
deriving DecidableEq, Repr

/-- Errors the service raises as `HTTPException`s. -/
inductive Err where
  | notFound (detail : String)
  | forbidden (detail : String)
  | validationError (detail : String)
deriving DecidableEq, Repr

/-- HTTP status code each error kind maps to. -/
def Err.httpStatus : Err → Nat
  | .notFound _ => 404
  | .forbidden _ => 403
  | .validationError _ => 422

/-- Python `dict.get`: value at the (first and only) occurrence of a key,
`None` when absent. -/
def dictGet {α : Type} (l : List (String × α)) (k : String) : Option α :=
  match l with
  | [] => none
  | (k', v) :: rest => if k' = k then some v else dictGet rest k

/-- Python `dict` assignment `d[k] = v`: overwrite in place when the key
is present, append otherwise. -/
def dictSet {α : Type} (l : List (String × α)) (k : String) (v : α) :
    List (String × α) :=
  match l with
  | [] => [(k, v)]
  | (k', v') :: rest =>
    if k' = k then (k, v) :: rest else (k', v') :: dictSet rest k v

/-- Python `dict.values()` in insertion order. -/
def dictValues {α : Type} (l : List (String × α)) : List α :=
  l.map (fun kv => kv.2)

/-- Python truthiness of an `Optional[str]`: `None` and the empty string
are falsy, every other string truthy. -/
def truthyOpt (o : Option String) : Bool :=
  match o with
  | none => false
  | some s => s != ""

/-- The in-memory `CRMData` store: three insertion-ordered collections
keyed by `customer_id`, `serial_number` and `record_id` respectively. -/
structure Store where
  customers : List (String × Customer)
  products : List (String × Product)
  service_records : List (String × ServiceRecord)
deriving DecidableEq, Repr

/-- Decimal rendering of `n` zero-padded on the left to at least three
digits — the meaning of the Python format spec `{n:03d}`. -/
def zeroPad3 (n : Nat) : String :=
  let s := toString n
  String.mk (List.replicate (3 - s.length) '0') ++ s

/-- Character class `[A-Z0-9]` of the serial-number pattern. -/
def isSerialChar (c : Char) : Bool :=
  ('A' ≤ c && c ≤ 'Z') || ('0' ≤ c && c ≤ '9')

/-- Python `re.match(r'^[A-Z0-9]{8,20}$', s)` is not `None`.  The
backtracking engine accepts exactly when some repetition count
`k ∈ [8, 20]` consumes a prefix of `k` class characters with `$`
matching at the remainder; under Python semantics (no `re.MULTILINE`),
`$` matches at the end of the string or just before a single trailing
newline. -/
def reMatchSerial (s : String) : Bool :=
  let cs := s.toList
  (List.range 13).any (fun i =>
    let k := 8 + i
    decide (k ≤ cs.length) && (cs.take k).all isSerialChar &&
      ((cs.drop k) == [] || (cs.drop k) == ['\n']))

/-- `GET /customers/{customer_id}/purchases`: linear scan of the product
collection filtered by owner; 404 when the filtered list is empty. -/
def get_customer_purchases (store : Store) (customer_id : String) :
    Except Err (List Product) :=
  let purchases :=
    (dictValues store.products).filter (fun p => p.customer_id == customer_id)
  if purchases.isEmpty then
    .error (.notFound "No purchases found for this customer")
  else
    .ok purchases

/-- Warranty status texts returned by the service; they render the
buckets "expired", "expiring soon" and "valid" of the specification. -/
def statusExpired : String := "保修已过期"

/-- Status text of the "expiring soon" bucket. -/
def statusExpiringSoon : String := "保修即将到期"

/-- Status text of the "valid" bucket. -/
def statusValid : String := "保修有效"

/-- `POST /warranty/query` store logic, after body validation.  `today`
is `date.today()` as an ordinal. -/
def query_warranty (store : Store) (today : Nat) (q : WarrantyQuery) :
    Except Err WarrantyResponse :=
  match dictGet store.products q.serial_number with
  | none => .error (.notFound "Product not found")
  | some product =>
    let emailRejected : Bool :=
      match q.customer_email with
      | none => false
      | some em =>
        if em = "" then false
        else
          match dictGet store.customers product.customer_id with
          | none => true
          | some customer => customer.email != em
    if emailRejected then
      .error (.forbidden "Customer email verification failed")
    else
      match dictGet store.customers product.customer_id with
      | none => .error (.notFound "Customer not found")
      | some customer =>
        let status_text :=
          if product.warranty_end_date < today then statusExpired
          else if (product.warranty_end_date : Int) - (today : Int) ≤ 30 then
            statusExpiringSoon
          else statusValid
        .ok {
          product_name := product.product_name
          serial_number := product.serial_number
          customer_name := customer.name
          purchase_date := product.purchase_date
          warranty_end_date := product.warranty_end_date
          warranty_type := product.warranty_type
          status_text := status_text }

/-- `POST /warranty/query` endpoint: the pydantic field validator runs on
the request body before the handler touches the store. -/
def warranty_endpoint (store : Store) (today : Nat) (serial_number : String)
    (customer_email : Option String) : Except Err WarrantyResponse :=
  if reMatchSerial serial_number then
    query_warranty store today
      { serial_number := serial_number, customer_email := customer_email }
  else
    .error (.validationError "Serial number must be 8-20 alphanumeric characters")

/-- `POST /service/records`: create a service record.  Returns the
handler's result together with the store it leaves behind (unchanged on
failure). -/
def create_service_record (store : Store) (record : ServiceRecordCreate) :
    Except Err ServiceRecord × Store :=
  match dictGet store.products record.serial_number with
  | none => (.error (.notFound "Product not found"), store)
  | some product =>
    let record_id := "SRV" ++ zeroPad3 (store.service_records.length + 1)
    let service_record : ServiceRecord := {
      record_id := record_id
      serial_number := record.serial_number
      customer_id := product.customer_id
      service_date := record.service_date
      service_type := record.service_type
      description := record.description
      technician := record.technician
      status := "scheduled"
      estimated_duration := record.estimated_duration }
    (.ok service_record,
     { store with
        service_records := dictSet store.service_records record_id service_record })

/-- Filtering loop of `GET /service/records`: a record is skipped when a
truthy filter disagrees with it (the `continue` cases of the source). -/
def filterRecords (serial_number customer_id : Option String)
    (status : Option ServiceStatus) : List ServiceRecord → List ServiceRecord
  | [] => []
  | r :: rest =>
    if truthyOpt serial_number && r.serial_number != serial_number.getD "" then
      filterRecords serial_number customer_id status rest
    else if truthyOpt customer_id && r.customer_id != customer_id.getD "" then
      filterRecords serial_number customer_id status rest
    else if status.isSome && r.status != (status.map ServiceStatus.value).getD "" then
      filterRecords serial_number customer_id status rest
    else
      r :: filterRecords serial_number customer_id status rest

/-- `GET /service/records`: list records passing every truthy filter.
A supplied `ServiceStatus` is always truthy (its value string is never
empty), so its truthiness is `isSome`. -/
def get_service_records (store : Store) (serial_number customer_id : Option String)
    (status : Option ServiceStatus) : List ServiceRecord :=
  filterRecords serial_number customer_id status
    (dictValues store.service_records)

/-- Field application of `PUT /service/records/{record_id}`: each of the
four optional fields is written exactly when it `is not None`. -/
def applyUpdate (update : ServiceRecordUpdate) (record : ServiceRecord) :
    ServiceRecord :=
  let record :=
    match update.service_date with
    | some d => { record with service_date := d }
    | none => record
  let record :=
    match update.status with
    | some s => { record with status := s.value }
    | none => record
  let record :=
    match update.actual_duration with
    | some a => { record with actual_duration := some a }
    | none => record
  match update.notes with
  | some n => { record with notes := some n }
  | none => record

/-- `PUT /service/records/{record_id}`: partial update in place; 404
without any change when the record id is absent. -/
def update_service_record (store : Store) (record_id : String)
    (update : ServiceRecordUpdate) : Except Err ServiceRecord × Store :=
  match dictGet store.service_records record_id with
  | none => (.error (.notFound "Service record not found"), store)
  | some record =>
    let record := applyUpdate update record
    (.ok record,
     { store with
        service_records := dictSet store.service_records record_id record })

/-- Seed customer CUST001. -/
def cust001 : Customer := {
  customer_id := "CUST001", name := "张明", email := "zhang.ming@example.com"
  phone := "+86-138-0011-2233", address := "北京市朝阳区建国门外大街1号"
  registration_date := toOrdinal 2022 3 15, date_of_birth := some (toOrdinal 1985 8 20)
  notes := some "优质客户，经常购买高端产品", total_purchases := 3
  lifetime_value := 28500, support_cases_count := 2
  communication_preferences := ["email", "sms"] }

/-- Seed customer CUST002. -/
def cust002 : Customer := {
  customer_id := "CUST002", name := "李华", email := "li.hua@example.com"
  phone := "+86-139-0022-3344", address := "上海市浦东新区陆家嘴金融中心"
  registration_date := toOrdinal 2023 1 10, date_of_birth := some (toOrdinal 1990 5 15)
  notes := some "企业客户，批量采购", total_purchases := 5
  lifetime_value := 42000, support_cases_count := 1
  communication_preferences := ["email", "wechat"] }

/-- Seed customer CUST003. -/
def cust003 : Customer := {
  customer_id := "CUST003", name := "王芳", email := "wang.fang@example.com"
  phone := "+86-137-0033-4455", address := "广州市天河区珠江新城"
  registration_date := toOrdinal 2022 11 5, date_of_birth := some (toOrdinal 1988 12 3)
  notes := some "个人用户，偏好智能家居产品", total_purchases := 2
  lifetime_value := 12800, support_cases_count := 0
  communication_preferences := ["sms", "phone"] }

/-- Seed customer CUST004. -/
def cust004 : Customer := {
  customer_id := "CUST004", name := "陈强", email := "chen.qiang@example.com"
  phone := "+86-136-0044-5566", address := "深圳市南山区科技园"
  registration_date := toOrdinal 2023 6 20, date_of_birth := some (toOrdinal 1992 7 18)
  notes := some "科技爱好者，喜欢最新产品", total_purchases := 4
  lifetime_value := 35600, support_cases_count := 3
  communication_preferences := ["email", "app"] }

/-- Seed customer CUST005. -/
def cust005 : Customer := {
  customer_id := "CUST005", name := "刘婷", email := "liu.ting@example.com"
  phone := "+86-135-0055-6677", address := "杭州市西湖区文三路"
  registration_date := toOrdinal 2022 8 12, date_of_birth := some (toOrdinal 1987 3 25)
  notes := some "电商客户，经常在线购物", total_purchases := 3
  lifetime_value := 19200, support_cases_count := 1
  communication_preferences := ["email", "sms", "wechat"] }

/-- Seed product PROD001. -/
def prod001 : Product := {
  product_id := "PROD001", serial_number := "SN20240001", product_name := "智能电视 65寸"
  customer_id := "CUST001", purchase_date := toOrdinal 2023 12 10
  warranty_end_date := toOrdinal 2025 12 10, warranty_type := "standard", status := "active" }

/-- Seed product PROD002. -/
def prod002 : Product := {
  product_id := "PROD002", serial_number := "SN20240002", product_name := "智能音箱 Pro"
  customer_id := "CUST001", purchase_date := toOrdinal 2023 8 15
  warranty_end_date := toOrdinal 2024 8 15, warranty_type := "extended", status := "active" }

/-- Seed product PROD003. -/
def prod003 : Product := {
  product_id := "PROD003", serial_number := "SN20240003", product_name := "笔记本电脑 X1"
  customer_id := "CUST002", purchase_date := toOrdinal 2024 1 20
  warranty_end_date := toOrdinal 2025 1 20, warranty_type := "premium", status := "active" }

/-- Seed product PROD004. -/
def prod004 : Product := {
  product_id := "PROD004", serial_number := "SN20240004", product_name := "平板电脑 T8"
  customer_id := "CUST002", purchase_date := toOrdinal 2023 11 5
  warranty_end_date := toOrdinal 2024 11 5, warranty_type := "standard", status := "active" }

/-- Seed product PROD005. -/
def prod005 : Product := {
  product_id := "PROD005", serial_number := "SN20240005", product_name := "智能手表 S3"
  customer_id := "CUST003", purchase_date := toOrdinal 2023 9 18
  warranty_end_date := toOrdinal 2024 9 18, warranty_type := "standard", status := "active" }

/-- Seed product PROD006. -/
def prod006 : Product := {
  product_id := "PROD006", serial_number := "SN20240006", product_name := "无线耳机 E2"
  customer_id := "CUST003", purchase_date := toOrdinal 2023 6 22
  warranty_end_date := toOrdinal 2024 6 22, warranty_type := "standard", status := "expired" }

/-- Seed product PROD007. -/
def prod007 : Product := {
  product_id := "PROD007", serial_number := "SN20240007", product_name := "游戏主机 G5"
  customer_id := "CUST004", purchase_date := toOrdinal 2024 2 14
  warranty_end_date := toOrdinal 2025 2 14, warranty_type := "extended", status := "active" }

/-- Seed product PROD008. -/
def prod008 : Product := {
  product_id := "PROD008", serial_number := "SN20240008", product_name := "VR头盔 V2"
  customer_id := "CUST004", purchase_date := toOrdinal 2023 10 30
  warranty_end_date := toOrdinal 2024 10 30, warranty_type := "standard", status := "active" }

/-- Seed product PROD009. -/
def prod009 : Product := {
  product_id := "PROD009", serial_number := "SN20240009", product_name := "数码相机 C9"
  customer_id := "CUST005", purchase_date := toOrdinal 2023 7 8
  warranty_end_date := toOrdinal 2024 7 8, warranty_type := "standard", status := "active" }

/-- Seed product PROD010. -/
def prod010 : Product := {
  product_id := "PROD010", serial_number := "SN20240010", product_name := "打印机 P3"
  customer_id := "CUST005", purchase_date := toOrdinal 2023 4 12
  warranty_end_date := toOrdinal 2024 4 12, warranty_type := "extended", status := "active" }

/-- Seed service record SRV001. -/
def srv001 : ServiceRecord := {
  record_id := "SRV001", serial_number := "SN20240001", customer_id := "CUST001"
  service_date := ⟨2024, 1, 15, 10, 0⟩, service_type := "屏幕维修"
  description := "屏幕出现竖线", technician := "王师傅", status := "completed"
  estimated_duration := 120, actual_duration := some 110
  notes := some "更换屏幕面板，测试正常" }

/-- Seed service record SRV002. -/
def srv002 : ServiceRecord := {
  record_id := "SRV002", serial_number := "SN20240003", customer_id := "CUST002"
  service_date := ⟨2024, 3, 20, 14, 30⟩, service_type := "系统升级"
  description := "操作系统升级服务", technician := "李工程师", status := "scheduled"
  estimated_duration := 60, actual_duration := none, notes := none }

/-- The store `CRMData.__init__` builds: each collection keyed as the
source keys it, in insertion order. -/
def initialStore : Store := {
  customers := [("CUST001", cust001), ("CUST002", cust002), ("CUST003", cust003),
                ("CUST004", cust004), ("CUST005", cust005)]
  products := [("SN20240001", prod001), ("SN20240002", prod002), ("SN20240003", prod003),
               ("SN20240004", prod004), ("SN20240005", prod005), ("SN20240006", prod006),
               ("SN20240007", prod007), ("SN20240008", prod008), ("SN20240009", prod009),
               ("SN20240010", prod010)]
  service_records := [("SRV001", srv001), ("SRV002", srv002)] }

/-- Strings "composed of 8 to 20 characters of `[A-Z0-9]` optionally
followed by a single trailing newline" — the language the serial-number
validator actually accepts (see `reMatchSerial`). -/
def SerialShape (s : String) : Prop :=
  ∃ core suffix : List Char, s.toList = core ++ suffix ∧
    core.all isSerialChar = true ∧ 8 ≤ core.length ∧ core.length ≤ 20 ∧
    (suffix = [] ∨ suffix = ['\n'])

/-- Concrete creation request used to witness creation claims. -/
def sampleCreateReq : ServiceRecordCreate := {
  serial_number := "SN20240001", service_type := "例行检修"
  description := "年度保养检查", technician := "王师傅"
  service_date := ⟨2024, 5, 1, 9, 0⟩, estimated_duration := 45 }

/-- Creation request whose serial number is pattern-valid but absent. -/
def unknownCreateReq : ServiceRecordCreate := {
  serial_number := "SN99999999", service_type := "例行检修"
  description := "年度保养检查", technician := "王师傅"
  service_date := ⟨2024, 5, 1, 9, 0⟩, estimated_duration := 45 }

/-- Update request supplying only `status`. -/
def statusOnlyUpdate : ServiceRecordUpdate := { status := some .completed }

/-- Update request supplying only `notes`. -/
def notesOnlyUpdate : ServiceRecordUpdate := { notes := some "复查完成" }

/-! Helper lemmas about the dict embedding and field application. -/

theorem dictGet_dictSet_self {α : Type} (l : List (String × α)) (k : String) (v : α) :
    dictGet (dictSet l k v) k = some v := by
  induction l with
  | nil => simp [dictGet, dictSet]
  | cons hd tl ih =>
    obtain ⟨k', v'⟩ := hd
    by_cases hk : k' = k <;> simp [dictGet, dictSet, hk, ih]

theorem dictSet_dictSet_self {α : Type} (l : List (String × α)) (k : String) (v w : α) :
    dictSet (dictSet l k v) k w = dictSet l k w := by
  induction l with
  | nil => simp [dictSet]
  | cons hd tl ih =>
    obtain ⟨k', v'⟩ := hd
    by_cases hk : k' = k <;> simp [dictSet, hk, ih]

theorem applyUpdate_fields (upd : ServiceRecordUpdate) (r : ServiceRecord) :
    (applyUpdate upd r).service_date = upd.service_date.getD r.service_date ∧
    (applyUpdate upd r).status = (upd.status.map ServiceStatus.value).getD r.status ∧
    (applyUpdate upd r).actual_duration =
      (match upd.actual_duration with | some a => some a | none => r.actual_duration) ∧
    (applyUpdate upd r).notes =
      (match upd.notes with | some n => some n | none => r.notes) ∧
    (applyUpdate upd r).record_id = r.record_id ∧
    (applyUpdate upd r).serial_number = r.serial_number ∧
    (applyUpdate upd r).customer_id = r.customer_id ∧
    (applyUpdate upd r).service_type = r.service_type ∧
    (applyUpdate upd r).description = r.description ∧
    (applyUpdate upd r).technician = r.technician ∧
    (applyUpdate upd r).estimated_duration = r.estimated_duration := by
  obtain ⟨sd, st, ad, nt⟩ := upd
  cases sd <;> cases st <;> cases ad <;> cases nt <;>
    simp [applyUpdate, Option.getD, Option.map]

theorem applyUpdate_idem (upd : ServiceRecordUpdate) (r : ServiceRecord) :
    applyUpdate upd (applyUpdate upd r) = applyUpdate upd r := by
  obtain ⟨sd, st, ad, nt⟩ := upd
  cases sd <;> cases st <;> cases ad <;> cases nt <;> rfl

/--
C1: for every product present in the store (with its owning customer
present), `query_warranty` on its serial number succeeds and computes
`status_text` by three-way bucketing of `warranty_end_date` against the
current date, tested in this order: end date strictly before today gives
the "expired" text; else a nonnegative difference of at most 30 days
gives the "expiring soon" text; otherwise the "valid" text.
-/
theorem c1_warranty_status_bucketing (store : Store) (today : Nat) (sn : String)
    (p : Product) (c : Customer)
    (hp : dictGet store.products sn = some p)
    (hc : dictGet store.customers p.customer_id = some c) :
    query_warranty store today { serial_number := sn } =
      .ok { product_name := p.product_name
            serial_number := p.serial_number
            customer_name := c.name
            purchase_date := p.purchase_date
            warranty_end_date := p.warranty_end_date
            warranty_type := p.warranty_type
            status_text :=
              if p.warranty_end_date < today then statusExpired
              else if 0 ≤ (p.warranty_end_date : Int) - (today : Int) ∧
                  (p.warranty_end_date : Int) - (today : Int) ≤ 30 then statusExpiringSoon
              else statusValid } := by
  by_cases h1 : p.warranty_end_date < today
  · simp [query_warranty, hp, hc, h1]
  · by_cases h2 : (p.warranty_end_date : Int) - (today : Int) ≤ 30
    · have h0 : 0 ≤ (p.warranty_end_date : Int) - (today : Int) := by omega
      simp [query_warranty, hp, hc, h1, h2, h0]
    · simp [query_warranty, hp, hc, h1, h2]

/-- Witness for C1: the seed product SN20240002 (warranty end
2024-08-15) queried on 2024-09-01 is in the "expired" bucket. -/
theorem c1_witness :
    query_warranty initialStore (toOrdinal 2024 9 1) { serial_number := "SN20240002" } =
      .ok { product_name := "智能音箱 Pro"
            serial_number := "SN20240002"
            customer_name := "张明"
            purchase_date := toOrdinal 2023 8 15
            warranty_end_date := toOrdinal 2024 8 15
            warranty_type := "extended"
            status_text := statusExpired } := by
  have h := c1_warranty_status_bucketing initialStore (toOrdinal 2024 9 1) "SN20240002"
    prod002 cust001 rfl rfl
  rw [h]
  congr 1

/--
C2: for every serial number present in the product collection,
`create_service_record` returns and inserts a record whose `record_id` is
"SRV" followed by the zero-padded 3-digit value of (current count of
service records + 1), whose `status` is "scheduled", whose `customer_id`
is copied from the product's current owner, whose `actual_duration` and
`notes` are `None`, and whose remaining fields equal the request's
values.
-/
theorem c2_create_service_record_spec (store : Store) (req : ServiceRecordCreate)
    (p : Product) (hp : dictGet store.products req.serial_number = some p) :
    ∃ sr : ServiceRecord,
      create_service_record store req =
        (.ok sr,
         { store with
            service_records := dictSet store.service_records sr.record_id sr }) ∧
      sr.record_id = "SRV" ++ zeroPad3 (store.service_records.length + 1) ∧
      sr.status = "scheduled" ∧
      sr.customer_id = p.customer_id ∧
      sr.actual_duration = none ∧
      sr.notes = none ∧
      sr.serial_number = req.serial_number ∧
      sr.service_date = req.service_date ∧
      sr.service_type = req.service_type ∧
      sr.description = req.description ∧
      sr.technician = req.technician ∧
      sr.estimated_duration = req.estimated_duration := by
  refine ⟨{ record_id := "SRV" ++ zeroPad3 (store.service_records.length + 1)
            serial_number := req.serial_number
            customer_id := p.customer_id
            service_date := req.service_date
            service_type := req.service_type
            description := req.description
            technician := req.technician
            status := "scheduled"
            estimated_duration := req.estimated_duration },
          ?_, rfl, rfl, rfl, rfl, rfl, rfl, rfl, rfl, rfl, rfl, rfl⟩
  simp [create_service_record, hp]

/-- Witness for C2: creating a record for seed serial SN20240001 yields
record id SRV003 (two seed records exist), status "scheduled" and owner
CUST001. -/
theorem c2_witness :
    ∃ sr : ServiceRecord,
      create_service_record initialStore sampleCreateReq =
        (.ok sr,
         { initialStore with
            service_records := dictSet initialStore.service_records sr.record_id sr }) ∧
      sr.record_id = "SRV" ++ zeroPad3 (initialStore.service_records.length + 1) ∧
      sr.status = "scheduled" ∧
      sr.customer_id = prod001.customer_id ∧
      sr.actual_duration = none ∧
      sr.notes = none ∧
      sr.serial_number = sampleCreateReq.serial_number ∧
      sr.service_date = sampleCreateReq.service_date ∧
      sr.service_type = sampleCreateReq.service_type ∧
      sr.description = sampleCreateReq.description ∧
      sr.technician = sampleCreateReq.technician ∧
      sr.estimated_duration = sampleCreateReq.estimated_duration :=
  c2_create_service_record_spec initialStore sampleCreateReq prod001 rfl

/--
C3: for every existing record id, `update_service_record` applies exactly
the supplied (non-absent) fields among `service_date`, `status`,
`actual_duration` and `notes`, leaves every other field at its prior
value (any status may be written over any other), and for an absent
record id fails NotFound leaving the store unchanged.
-/
theorem c3_update_partial_frame (store : Store) (rid : String)
    (upd : ServiceRecordUpdate) :
    (∀ r : ServiceRecord, dictGet store.service_records rid = some r →
      update_service_record store rid upd =
        (.ok (applyUpdate upd r),
         { store with
            service_records := dictSet store.service_records rid (applyUpdate upd r) }) ∧
      (applyUpdate upd r).service_date = upd.service_date.getD r.service_date ∧
      (applyUpdate upd r).status = (upd.status.map ServiceStatus.value).getD r.status ∧
      (applyUpdate upd r).actual_duration =
        (match upd.actual_duration with | some a => some a | none => r.actual_duration) ∧
      (applyUpdate upd r).notes =
        (match upd.notes with | some n => some n | none => r.notes) ∧
      (applyUpdate upd r).record_id = r.record_id ∧
      (applyUpdate upd r).serial_number = r.serial_number ∧
      (applyUpdate upd r).customer_id = r.customer_id ∧
      (applyUpdate upd r).service_type = r.service_type ∧
      (applyUpdate upd r).description = r.description ∧
      (applyUpdate upd r).technician = r.technician ∧
      (applyUpdate upd r).estimated_duration = r.estimated_duration) ∧
    (dictGet store.service_records rid = none →
      update_service_record store rid upd =
        (.error (.notFound "Service record not found"), store)) := by
  constructor
  · intro r hr
    refine ⟨by simp [update_service_record, hr], applyUpdate_fields upd r⟩
  · intro hr
    simp [update_service_record, hr]

/-- Witness for C3: updating seed record SRV002 with only
`status := completed` sets the status and leaves every other field
unchanged. -/
theorem c3_witness :
    update_service_record initialStore "SRV002" statusOnlyUpdate =
      (.ok (applyUpdate statusOnlyUpdate srv002),
       { initialStore with
          service_records :=
            dictSet initialStore.service_records "SRV002"
              (applyUpdate statusOnlyUpdate srv002) }) ∧
    (applyUpdate statusOnlyUpdate srv002).status = "completed" ∧
    (applyUpdate statusOnlyUpdate srv002).service_date = srv002.service_date ∧
    (applyUpdate statusOnlyUpdate srv002).notes = srv002.notes ∧
    (applyUpdate statusOnlyUpdate srv002).actual_duration = srv002.actual_duration := by
  obtain ⟨h1, h2, h3, h4, h5, -⟩ :=
    (c3_update_partial_frame initialStore "SRV002" statusOnlyUpdate).1 srv002 rfl
  exact ⟨h1, by rw [h3]; rfl, by rw [h2]; rfl, by rw [h5]; rfl, by rw [h4]; rfl⟩

/--
C5: for every serial number absent from the product collection,
`create_service_record` fails NotFound and leaves the service-record
collection (indeed the whole store) exactly as it was.
-/
theorem c5_create_unknown_serial (store : Store) (req : ServiceRecordCreate)
    (h : dictGet store.products req.serial_number = none) :
    create_service_record store req = (.error (.notFound "Product not found"), store) := by
  simp [create_service_record, h]

/-- Witness for C5: creating a record for the absent serial SN99999999
on the seed store fails NotFound and returns the seed store unchanged. -/
theorem c5_witness :
    create_service_record initialStore unknownCreateReq =
      (.error (.notFound "Product not found"), initialStore) :=
  c5_create_unknown_serial initialStore unknownCreateReq rfl

/--
C7: `get_customer_purchases` returns the products whose `customer_id`
equals the argument, in the insertion order of the product collection
(the order `filter` preserves), and fails NotFound exactly when that
filtered list is empty — regardless of whether the customer itself
exists, which it never consults.
-/
theorem c7_purchases_filter_or_not_found (store : Store) (cid : String) :
    ((dictValues store.products).filter (fun p => p.customer_id == cid) ≠ [] →
      get_customer_purchases store cid =
        .ok ((dictValues store.products).filter (fun p => p.customer_id == cid))) ∧
    ((dictValues store.products).filter (fun p => p.customer_id == cid) = [] →
      get_customer_purchases store cid =
        .error (.notFound "No purchases found for this customer")) := by
  constructor <;> intro h <;>
    simp [get_customer_purchases, List.isEmpty_iff, h]

/-- Witness for C7: CUST001 owns the two seed products PROD001 and
PROD002 in insertion order, and the unknown customer CUST999 (for whom
the filtered list is empty) gets NotFound. -/
theorem c7_witness :
    get_customer_purchases initialStore "CUST001" = .ok [prod001, prod002] ∧
    get_customer_purchases initialStore "CUST999" =
      .error (.notFound "No purchases found for this customer") := by
  constructor
  · have h := (c7_purchases_filter_or_not_found initialStore "CUST001").1 (by decide)
    rw [h]
    rfl
  · exact (c7_purchases_filter_or_not_found initialStore "CUST999").2 (by decide)

/--
C9: for every existing record id and every partial update request,
applying `update_service_record` twice with the same request leaves
exactly the same store state as applying it once.
-/
theorem c9_update_idempotent (store : Store) (rid : String)
    (upd : ServiceRecordUpdate) (r : ServiceRecord)
    (h : dictGet store.service_records rid = some r) :
    (update_service_record (update_service_record store rid upd).2 rid upd).2 =
      (update_service_record store rid upd).2 := by
  simp [update_service_record, h, dictGet_dictSet_self, applyUpdate_idem,
    dictSet_dictSet_self]

/-- Witness for C9: updating seed record SRV001's notes twice with the
same request leaves the same store as updating once. -/
theorem c9_witness :
    (update_service_record
        (update_service_record initialStore "SRV001" notesOnlyUpdate).2
        "SRV001" notesOnlyUpdate).2 =
      (update_service_record initialStore "SRV001" notesOnlyUpdate).2 :=
  c9_update_idempotent initialStore "SRV001" notesOnlyUpdate srv001 rfl

theorem not_bne_eq_beq {α : Type} [BEq α] (a b : α) : (!(a != b)) = (a == b) := by
  simp [bne]

theorem filterRecords_eq_filter_not (sn cid : Option String)
    (st : Option ServiceStatus) (l : List ServiceRecord) :
    filterRecords sn cid st l = l.filter (fun r =>
      !(truthyOpt sn && r.serial_number != sn.getD "") &&
      !(truthyOpt cid && r.customer_id != cid.getD "") &&
      !(st.isSome && r.status != (st.map ServiceStatus.value).getD "")) := by
  induction l with
  | nil => rfl
  | cons r rest ih =>
    rw [filterRecords, List.filter_cons]
    by_cases h1 : (truthyOpt sn && r.serial_number != sn.getD "") = true
    · simp [h1, ih]
    · by_cases h2 : (truthyOpt cid && r.customer_id != cid.getD "") = true
      · simp [h1, h2, ih]
      · by_cases h3 : (st.isSome && r.status != (st.map ServiceStatus.value).getD "") = true
        · simp [h1, h2, h3, ih]
        · simp [h1, h2, h3, ih]

/--
C6: for every combination of the optional filters (string filters, when
supplied, carrying a nonempty value — the degenerate empty-string value
is the separate empty-filter behavior), `get_service_records` returns
exactly the records satisfying every supplied filter, with omitted
filters matching everything; it is total, so an empty match yields the
empty list and never an error.
-/
theorem c6_list_records_conjunctive_filter (store : Store)
    (sn cid : Option String) (st : Option ServiceStatus)
    (hsn : sn ≠ some "") (hcid : cid ≠ some "") :
    get_service_records store sn cid st =
      (dictValues store.service_records).filter (fun r =>
        (match sn with | none => true | some s => r.serial_number == s) &&
        (match cid with | none => true | some s => r.customer_id == s) &&
        (match st with | none => true | some s => r.status == s.value)) := by
  rw [get_service_records, filterRecords_eq_filter_not]
  refine List.filter_congr (fun r _ => ?_)
  rcases sn with _ | s
  · rcases cid with _ | t
    · rcases st with _ | u <;> simp [truthyOpt, not_bne_eq_beq]
    · have ht : (t != "") = true := bne_iff_ne.mpr (fun h => hcid (by rw [h]))
      rcases st with _ | u <;> simp [truthyOpt, ht, not_bne_eq_beq]
  · have hs : (s != "") = true := bne_iff_ne.mpr (fun h => hsn (by rw [h]))
    rcases cid with _ | t
    · rcases st with _ | u <;> simp [truthyOpt, hs, not_bne_eq_beq]
    · have ht : (t != "") = true := bne_iff_ne.mpr (fun h => hcid (by rw [h]))
      rcases st with _ | u <;> simp [truthyOpt, hs, ht, not_bne_eq_beq]

/-- Witness for C6: filtering the seed records by customer CUST001
returns exactly the seed record SRV001, and filtering by the unmatched
customer CUST999 returns the empty list. -/
theorem c6_witness :
    get_service_records initialStore none (some "CUST001") none = [srv001] ∧
    get_service_records initialStore none (some "CUST999") none = [] := by
  have h1 := c6_list_records_conjunctive_filter initialStore none (some "CUST001") none
    (by simp) (by simp)
  have h2 := c6_list_records_conjunctive_filter initialStore none (some "CUST999") none
    (by simp) (by simp)
  rw [h1, h2]
  constructor <;> rfl

/--
C10: in `get_service_records`, a supplied string filter whose value is
the empty string is treated exactly like an omitted filter — it matches
every record rather than only records whose field is empty.
-/
theorem c10_empty_string_filter_matches_all (store : Store)
    (sn cid : Option String) (st : Option ServiceStatus) :
    get_service_records store (some "") cid st = get_service_records store none cid st ∧
    get_service_records store sn (some "") st = get_service_records store sn none st := by
  constructor <;>
    · rw [get_service_records, get_service_records,
        filterRecords_eq_filter_not, filterRecords_eq_filter_not]
      refine List.filter_congr (fun r _ => ?_)
      simp [truthyOpt]

/--
C4: the warranty endpoint fails NotFound for every pattern-valid serial
number absent from the product collection (whatever email accompanies
it), and, when a customer email is supplied (a validated `EmailStr` is
never the empty string) together with a present serial number whose
owning customer exists, fails Forbidden exactly when the supplied email
differs (case-sensitively, plain string equality) from the owning
customer's email.
-/
theorem c4_warranty_not_found_and_forbidden (store : Store) (today : Nat)
    (sn : String) :
    (∀ em : Option String, reMatchSerial sn = true →
      dictGet store.products sn = none →
      warranty_endpoint store today sn em = .error (.notFound "Product not found")) ∧
    (∀ (em : String) (p : Product) (c : Customer), reMatchSerial sn = true →
      em ≠ "" →
      dictGet store.products sn = some p →
      dictGet store.customers p.customer_id = some c →
      (warranty_endpoint store today sn (some em) =
          .error (.forbidden "Customer email verification failed") ↔ em ≠ c.email)) := by
  constructor
  · intro em hm hnone
    simp [warranty_endpoint, hm, query_warranty, hnone]
  · intro em p c hm hem hp hc
    by_cases hmatch : c.email = em
    · have hbne : (c.email != em) = false := by simp [hmatch]
      simp [warranty_endpoint, hm, query_warranty, hp, hc, hem, hbne, hmatch]
    · have hbne : (c.email != em) = true := bne_iff_ne.mpr hmatch
      simp [warranty_endpoint, hm, query_warranty, hp, hc, hem, hbne]
      exact fun h => hmatch h.symm

/-- Witness for C4: on the seed store, a pattern-valid but absent serial
gets NotFound, and querying SN20240001 with a wrong email gets
Forbidden. -/
theorem c4_witness :
    warranty_endpoint initialStore (toOrdinal 2024 9 1) "SN99999999" none =
      .error (.notFound "Product not found") ∧
    warranty_endpoint initialStore (toOrdinal 2024 9 1) "SN20240001"
        (some "wrong.person@example.com") =
      .error (.forbidden "Customer email verification failed") := by
  constructor
  · exact (c4_warranty_not_found_and_forbidden initialStore (toOrdinal 2024 9 1)
      "SN99999999").1 none (by decide) rfl
  · exact ((c4_warranty_not_found_and_forbidden initialStore (toOrdinal 2024 9 1)
      "SN20240001").2 "wrong.person@example.com" prod001 cust001 (by decide)
      (by decide) rfl rfl).mpr (by decide)

theorem query_warranty_ne_validation (store : Store) (today : Nat)
    (q : WarrantyQuery) (d : String) :
    query_warranty store today q ≠ .error (.validationError d) := by
  intro h
  unfold query_warranty at h
  repeat' split at h
  all_goals try simp at h
  all_goals split at h <;> simp at h

theorem reMatchSerial_iff_serialShape (s : String) :
    reMatchSerial s = true ↔ SerialShape s := by
  unfold reMatchSerial SerialShape
  rw [List.any_eq_true]
  constructor
  · rintro ⟨i, hi, hcond⟩
    rw [List.mem_range] at hi
    simp only [Bool.and_eq_true, Bool.or_eq_true, decide_eq_true_eq, beq_iff_eq] at hcond
    obtain ⟨⟨hk, hall⟩, hd⟩ := hcond
    refine ⟨s.toList.take (8 + i), s.toList.drop (8 + i),
      (List.take_append_drop _ _).symm, hall, ?_, ?_, hd⟩
    · rw [List.length_take]; omega
    · rw [List.length_take]; omega
  · rintro ⟨core, suffix, hsplit, hall, h8, h20, hsuf⟩
    refine ⟨core.length - 8, ?_, ?_⟩
    · rw [List.mem_range]; omega
    · have hk : 8 + (core.length - 8) = core.length := by omega
      simp only [hk, Bool.and_eq_true, Bool.or_eq_true, decide_eq_true_eq, beq_iff_eq,
        hsplit]
      refine ⟨⟨?_, ?_⟩, ?_⟩
      · rw [List.length_append]; omega
      · rw [List.take_left' rfl]; exact hall
      · rw [List.drop_left' rfl]; exact hsuf

/--
C8 counterexample: the serial string "ABCDEFGH\n" contains a character
outside `[A-Z0-9]` (so the claim as stated demands a 422 rejection), yet
the endpoint accepts it through validation and proceeds to the store
lookup, answering 404 NotFound: Python's `$` also matches just before a
single trailing newline.
-/
theorem c8_counterexample :
    warranty_endpoint initialStore (toOrdinal 2024 9 1) "ABCDEFGH\n" none =
      .error (.notFound "Product not found") ∧
    isSerialChar '\n' = false ∧ '\n' ∈ "ABCDEFGH\n".toList := by
  refine ⟨rfl, rfl, by decide⟩

/--
C8 (amended): a warranty query is rejected with a ValidationError
(HTTP 422), before any store lookup (the result is the same for every
store), exactly when its serial number is not composed of 8 to 20
uppercase letters or digits optionally followed by one trailing newline
character — the language `re.match(r'^[A-Z0-9]{8,20}$', ...)` accepts
under Python semantics.
-/
theorem c8_pattern_validation_amended (store : Store) (today : Nat)
    (sn : String) (em : Option String) :
    (warranty_endpoint store today sn em =
        .error (.validationError "Serial number must be 8-20 alphanumeric characters") ↔
      ¬ SerialShape sn) ∧
    (¬ SerialShape sn → ∀ store' : Store,
      warranty_endpoint store' today sn em = warranty_endpoint store today sn em) := by
  have hiff := reMatchSerial_iff_serialShape sn
  constructor
  · unfold warranty_endpoint
    by_cases h : reMatchSerial sn = true
    · rw [if_pos h]
      constructor
      · intro hq
        exact absurd hq (query_warranty_ne_validation store today _ _)
      · intro hns
        exact absurd (hiff.mp h) hns
    · rw [if_neg h]
      exact ⟨fun _ hs => h (hiff.mpr hs), fun _ => rfl⟩
  · intro hns store'
    have h : ¬ reMatchSerial sn = true := fun hm => hns (hiff.mp hm)
    unfold warranty_endpoint
    rw [if_neg h, if_neg h]

end CRMSample
